import Mathlib

/-!
Shallow embedding of `datapath/vport.c` (Open vSwitch vport layer, fragmentation
fork).  Byte-order conversions (`htons`/`ntohs`) are modelled as the identity:
all header fields hold host-order natural numbers.  `unsigned int` arithmetic
that can wrap (the `frag_max`/`left` subtractions) is modelled with an explicit
wrap at `2 ^ 32`; `u64` statistics counters wrap at `2 ^ 64`.  Fallible runtime
services (fragment allocation, `skb_cow_head`, the backend `send` operation)
are passed in as explicit oracles, since the C code consumes them through
function calls whose outcome this layer does not control.
-/

/-- `ETH_P_IP` (0x0800). -/
def ETH_P_IP : Nat := 0x0800

/-- `ETH_P_8021Q` (0x8100). -/
def ETH_P_8021Q : Nat := 0x8100

/-- `IP_DF` flag bit of the IPv4 `frag_off` field. -/
def IP_DF : Nat := 0x4000

/-- `IP_MF` flag bit of the IPv4 `frag_off` field. -/
def IP_MF : Nat := 0x2000

/-- `IP_OFFSET` mask of the IPv4 `frag_off` field. -/
def IP_OFFSET : Nat := 0x1FFF

/-- `unsigned int` subtraction `a - b` (wraps modulo `2 ^ 32`). -/
def usub32 (a b : Nat) : Nat := (a + 2 ^ 32 - b) % 2 ^ 32

/-- `u64` addition (wraps modulo `2 ^ 64`), used for every statistics update. -/
def addu64 (a b : Nat) : Nat := (a + b) % 2 ^ 64

/-- IPv4 header of an skb: `ihl` is `ip_hdrlen(skb)` in bytes, `tot_len` and
`frag_off` are the 16-bit header fields (host order). -/
structure IpHeader where
  ihl : Nat
  tot_len : Nat
  frag_off : Nat
deriving DecidableEq

/-- The slice of an `sk_buff` this layer reads: the outer Ethernet type, the
VLAN fields (meaningful when `h_proto = ETH_P_8021Q`), the hardware-accel VLAN
tag (`vlan_tx_tag_present`/`vlan_tx_tag_get`), the IPv4 header and the IP
payload bytes that follow it. -/
structure SkBuff where
  h_proto : Nat
  vlan_encap_proto : Nat
  vlan_tci : Nat
  hwaccel_tci : Option Nat
  ip : IpHeader
  payload : List Nat
deriving DecidableEq

/-- `struct ovs_vport_stats` (all fields `u64`). -/
@[ext]
structure OvsVportStats where
  rx_packets : Nat
  tx_packets : Nat
  rx_bytes : Nat
  tx_bytes : Nat
  rx_errors : Nat
  tx_errors : Nat
  rx_dropped : Nat
  tx_dropped : Nat
deriving DecidableEq

/-- `vport->err_stats` (the four error counters kept under `stats_lock`). -/
structure ErrStats where
  rx_dropped : Nat
  rx_errors : Nat
  tx_dropped : Nat
  tx_errors : Nat
deriving DecidableEq

/-- `struct pcpu_tstats`: one per-execution-context traffic accumulator. -/
structure PcpuStats where
  rx_packets : Nat
  rx_bytes : Nat
  tx_packets : Nat
  tx_bytes : Nat
deriving DecidableEq

/-- The statistics-bearing state of one vport: the injected offset stats, the
error counters and the per-cpu accumulators (`ncpu` possible cpus). -/
structure VportState where
  ncpu : Nat
  offset_stats : OvsVportStats
  err_stats : ErrStats
  pcpu : Nat → PcpuStats

/-- `enum vport_err_type`. -/
inductive VportErrType
  | VPORT_E_RX_DROPPED
  | VPORT_E_RX_ERROR
  | VPORT_E_TX_DROPPED
  | VPORT_E_TX_ERROR
deriving DecidableEq

/-- `ovs_vport_record_error`: bump exactly one error counter. -/
def ovs_vport_record_error (err_type : VportErrType) (s : VportState) : VportState :=
  match err_type with
  | .VPORT_E_RX_DROPPED =>
      { s with err_stats := { s.err_stats with rx_dropped := addu64 s.err_stats.rx_dropped 1 } }
  | .VPORT_E_RX_ERROR =>
      { s with err_stats := { s.err_stats with rx_errors := addu64 s.err_stats.rx_errors 1 } }
  | .VPORT_E_TX_DROPPED =>
      { s with err_stats := { s.err_stats with tx_dropped := addu64 s.err_stats.tx_dropped 1 } }
  | .VPORT_E_TX_ERROR =>
      { s with err_stats := { s.err_stats with tx_errors := addu64 s.err_stats.tx_errors 1 } }

/-- `ovs_vport_set_stats`: replace the offset stats. -/
def ovs_vport_set_stats (stats : OvsVportStats) (s : VportState) : VportState :=
  { s with offset_stats := stats }

/-- One step of the per-cpu summation loop in `ovs_vport_get_stats`. -/
def pcpuAdd (acc : OvsVportStats) (p : PcpuStats) : OvsVportStats :=
  { acc with
    rx_bytes := addu64 acc.rx_bytes p.rx_bytes
    rx_packets := addu64 acc.rx_packets p.rx_packets
    tx_bytes := addu64 acc.tx_bytes p.tx_bytes
    tx_packets := addu64 acc.tx_packets p.tx_packets }

/-- `ovs_vport_get_stats`: offset stats, plus the error counters, plus the sum
of every per-cpu accumulator. -/
def ovs_vport_get_stats (s : VportState) : OvsVportStats :=
  let st0 := s.offset_stats
  let st1 := { st0 with
    rx_errors := addu64 st0.rx_errors s.err_stats.rx_errors
    tx_errors := addu64 st0.tx_errors s.err_stats.tx_errors
    tx_dropped := addu64 st0.tx_dropped s.err_stats.tx_dropped
    rx_dropped := addu64 st0.rx_dropped s.err_stats.rx_dropped }
  (List.range s.ncpu).foldl (fun acc i => pcpuAdd acc (s.pcpu i)) st1

/-- `__ovs_vport_send`: run the backend `send` (its result is the oracle
argument `sent`), update this cpu's tx accumulator on a positive result,
record an error otherwise.  Returns the backend result, the new state, and
whether this function freed the skb it was given (`kfree_skb` on `sent < 0`). -/
def __ovs_vport_send (sent : Int) (cpu : Nat) (s : VportState) :
    Int × VportState × Bool :=
  if sent > 0 then
    ( sent,
      { s with pcpu := fun i =>
          if i = cpu then
            { rx_packets := (s.pcpu i).rx_packets
              rx_bytes := (s.pcpu i).rx_bytes
              tx_packets := addu64 (s.pcpu i).tx_packets 1
              tx_bytes := addu64 (s.pcpu i).tx_bytes sent.toNat }
          else s.pcpu i },
      false )
  else if sent < 0 then
    (sent, ovs_vport_record_error .VPORT_E_TX_ERROR s, true)
  else
    (sent, ovs_vport_record_error .VPORT_E_TX_DROPPED s, false)

/-- `ovs_vlan_untag`: if the frame is not 802.1Q, or `skb_cow_head` fails
(oracle `cowOk = false`), return `NULL` (the skb is not freed).  Otherwise pull
the VLAN header — after the `memmove`/`skb_pull` the Ethernet type becomes the
encapsulated protocol — and move the tag to the hardware-accel slot. -/
def ovs_vlan_untag (cowOk : Bool) (skb : SkBuff) : Option SkBuff :=
  if skb.h_proto ≠ ETH_P_8021Q then none
  else if cowOk = false then none
  else some { skb with h_proto := skb.vlan_encap_proto, hwaccel_tci := some skb.vlan_tci }

/-- One IPv4 fragment emitted by `ovs_vport_fragment`: its IP header length,
rewritten `tot_len` and `frag_off` fields, payload slice and re-applied VLAN
tag.  The Ethernet header bytes are copied verbatim from the original and are
not modelled. -/
structure Fragment where
  ip_hlen : Nat
  tot_len : Nat
  frag_off_field : Nat
  payload : List Nat
  vlan_tci : Option Nat
deriving DecidableEq

/-- Observable outcome of a send operation: the returned value, the final
statistics state, the fragments handed to the backend (empty on the direct
path), how many times the ORIGINAL skb was freed, and how many backend `send`
invocations happened. -/
structure SendOut where
  ret : Int
  st : VportState
  frags : List Fragment
  skbFreeCount : Nat
  backendCalls : Nat

/-- The `while (left > 0)` loop of `ovs_vport_fragment`.  `alloc i` resolves
the `alloc_skb` for iteration `i`; `sendRes i` is the backend `send` result for
the fragment built in iteration `i`.  `fuel` bounds the iteration count:
`none` means the C loop does not terminate within `fuel` iterations (with
`frag_max = 0` the real loop never terminates). -/
def fragLoop (pl : List Nat) (ip_hlen frag_max : Nat) (tci : Option Nat)
    (alloc : Nat → Bool) (sendRes : Nat → Int) (cpu : Nat) :
    Nat → Nat → Nat → Nat → Nat → Int → VportState → Option SendOut
  | fuel, left, frag_off, flag, idx, sent, st =>
    if left = 0 then
      -- loop exit: kfree_skb(skb); return sent;
      some ⟨sent, st, [], 1, 0⟩
    else
      match fuel with
      | 0 => none
      | fuel' + 1 =>
        let flag' := if left > frag_max then flag ||| IP_MF
                     else flag &&& (0xFFFFFFFF ^^^ IP_MF)
        let frag_len := if left > frag_max then frag_max else left
        if alloc idx = false then
          -- alloc_skb failed: return sent; (the original skb is NOT freed here)
          some ⟨sent, st, [], 0, 0⟩
        else
          let f : Fragment :=
            { ip_hlen := ip_hlen
              tot_len := ip_hlen + frag_len
              frag_off_field := ((frag_off >>> 3) &&& IP_OFFSET) ||| flag'
              payload := (pl.drop frag_off).take frag_len
              vlan_tci := tci }
          let r := __ovs_vport_send (sendRes idx) cpu st
          match fragLoop pl ip_hlen frag_max tci alloc sendRes cpu
              fuel' (left - frag_len) (frag_off + frag_len) flag' (idx + 1) r.1 r.2.1 with
          | none => none
          | some out =>
            some ⟨out.ret, out.st, f :: out.frags, out.skbFreeCount, out.backendCalls + 1⟩

/-- `ovs_vport_fragment`.  `frag_max` is `((frag_max_size > 0 ? frag_max_size
: mtu) - ip_hlen) & ~7`: the subtraction wraps at `2 ^ 32` (`usub32`) and
`& ~7` clears the low three bits of a value already `< 2 ^ 32`, i.e. rounds
down to a multiple of 8. -/
def ovs_vport_fragment (skb : SkBuff) (frag_max_size mtu : Nat)
    (alloc : Nat → Bool) (sendRes : Nat → Int) (cpu : Nat) (st : VportState) :
    Option SendOut :=
  let ip_hlen := skb.ip.ihl
  let flag := skb.ip.frag_off &&& IP_DF
  let left := usub32 skb.ip.tot_len ip_hlen
  let v := usub32 (if frag_max_size > 0 then frag_max_size else mtu) ip_hlen
  let frag_max := v - v % 8
  fragLoop skb.payload ip_hlen frag_max skb.hwaccel_tci alloc sendRes cpu
    left left 0 flag 0 0 st

/-- `enum ovs_vport_type` members named in `vport.c`. -/
inductive VportType
  | OVS_VPORT_TYPE_NETDEV
  | OVS_VPORT_TYPE_INTERNAL
  | OVS_VPORT_TYPE_GRE
  | OVS_VPORT_TYPE_GRE64
  | OVS_VPORT_TYPE_VXLAN
  | OVS_VPORT_TYPE_LISP
deriving DecidableEq

/-- The slice of `struct vport` that `ovs_vport_send` reads: the backend type
and, for device-backed/internal backends, the device MTU. -/
structure Vport where
  type : VportType
  dev_mtu : Nat

/-- Which exit `ovs_vport_send` takes: the `send:` label, the `fragment:`
label, or the `return 0` after a failed `ovs_vlan_untag`. -/
inductive SendPath
  | direct
  | fragPath
  | vlanFailDrop
deriving DecidableEq

/-- The direct-send exit (`send:` label): one backend call on the original
skb; the skb is freed iff the backend reported a negative result. -/
def directSendOut (sendRes0 : Int) (cpu : Nat) (st : VportState) : SendOut :=
  let r := __ovs_vport_send sendRes0 cpu st
  ⟨r.1, r.2.1, [], if r.2.2 then 1 else 0, 1⟩

/-- `ovs_vport_send`: the full decision logic.  Returns which exit was taken
together with the observable outcome (`none` = the fragmentation loop
diverges). -/
def ovs_vport_send (vp : Vport) (skb : SkBuff) (frag_max_size : Nat)
    (cowOk : Bool) (alloc : Nat → Bool) (sendRes : Nat → Int) (cpu : Nat)
    (st : VportState) : SendPath × Option SendOut :=
  let mtu := if vp.type = .OVS_VPORT_TYPE_NETDEV ∨ vp.type = .OVS_VPORT_TYPE_INTERNAL
             then vp.dev_mtu else 0
  if frag_max_size > 0 then
    (.fragPath, ovs_vport_fragment skb frag_max_size mtu alloc sendRes cpu st)
  else if mtu = 0 then
    (.direct, some (directSendOut (sendRes 0) cpu st))
  else if skb.h_proto = ETH_P_IP then
    if skb.ip.frag_off &&& IP_DF ≠ 0 then
      (.direct, some (directSendOut (sendRes 0) cpu st))
    else if skb.ip.tot_len > mtu then
      (.fragPath, ovs_vport_fragment skb frag_max_size mtu alloc sendRes cpu st)
    else
      (.direct, some (directSendOut (sendRes 0) cpu st))
  else if skb.h_proto = ETH_P_8021Q then
    if skb.vlan_encap_proto = ETH_P_IP then
      if skb.ip.frag_off &&& IP_DF ≠ 0 then
        (.direct, some (directSendOut (sendRes 0) cpu st))
      else if skb.ip.tot_len > mtu then
        match ovs_vlan_untag cowOk skb with
        | none => (.vlanFailDrop, some ⟨0, st, [], 0, 0⟩)
        | some skb2 =>
          (.fragPath, ovs_vport_fragment skb2 frag_max_size mtu alloc sendRes cpu st)
      else
        (.direct, some (directSendOut (sendRes 0) cpu st))
    else
      (.direct, some (directSendOut (sendRes 0) cpu st))
  else
    (.direct, some (directSendOut (sendRes 0) cpu st))

/-- A vport as seen by the registry: the backend-reported name and the owning
datapath's namespace identity. -/
structure CreatedVport where
  name : String
  net : Nat
deriving DecidableEq

/-- `VPORT_HASH_BUCKETS`. -/
def VPORT_HASH_BUCKETS : Nat := 1024

/-- The `dev_table` bucket array, indexed by bucket number. -/
def Registry := Nat → List CreatedVport

/-- `hash_bucket`: jhash of the name salted by the namespace (the hash itself
is an oracle), masked to the bucket count (`& (VPORT_HASH_BUCKETS - 1)` on a
power of two = `% VPORT_HASH_BUCKETS`). -/
def hash_bucket_idx (hash : Nat → String → Nat) (net : Nat) (name : String) : Nat :=
  hash net name % VPORT_HASH_BUCKETS

/-- `ovs_vport_locate`: scan the bucket for a name and namespace match. -/
def ovs_vport_locate (hash : Nat → String → Nat) (reg : Registry)
    (net : Nat) (name : String) : Option CreatedVport :=
  (reg (hash_bucket_idx hash net name)).find? (fun v => v.name == name && v.net == net)

/-- `EAFNOSUPPORT`. -/
def EAFNOSUPPORT : Int := 97

/-- `ENOMEM`. -/
def ENOMEM : Int := 12

/-- One entry of `vport_ops_list`: the backend's type tag and its `create`
operation (an external backend, so its body is an oracle). -/
structure VportOpsEntry where
  type : VportType
  create : String → Nat → Except Int CreatedVport

/-- The scan loop of `ovs_vport_add` over `vport_ops_list`: first matching
type wins; its `create` runs, and on success the vport is prepended to its
hash bucket.  A `create` error is returned with the registry untouched; no
match at all yields `-EAFNOSUPPORT`. -/
def vportAddLoop (hash : Nat → String → Nat) (reg : Registry)
    (ptype : VportType) (pname : String) (pnet : Nat) :
    List VportOpsEntry → Except Int CreatedVport × Registry
  | [] => (Except.error (-EAFNOSUPPORT), reg)
  | e :: rest =>
    if e.type = ptype then
      match e.create pname pnet with
      | .error err => (.error err, reg)
      | .ok vport =>
        let b := hash_bucket_idx hash vport.net vport.name
        (.ok vport, fun i => if i = b then vport :: reg i else reg i)
    else vportAddLoop hash reg ptype pname pnet rest

/-- `ovs_vport_add`. -/
def ovs_vport_add (hash : Nat → String → Nat) (opsList : List VportOpsEntry)
    (reg : Registry) (ptype : VportType) (pname : String) (pnet : Nat) :
    Except Int CreatedVport × Registry :=
  vportAddLoop hash reg ptype pname pnet opsList

/-- `ovs_vport_record_error` applied `n` times with the same kind. -/
def recordErrorN (k : VportErrType) : Nat → VportState → VportState
  | 0, s => s
  | n + 1, s => ovs_vport_record_error k (recordErrorN k n s)

/-- The error counter of a stats snapshot corresponding to an error kind. -/
def errCounter (k : VportErrType) (st : OvsVportStats) : Nat :=
  match k with
  | .VPORT_E_RX_DROPPED => st.rx_dropped
  | .VPORT_E_RX_ERROR => st.rx_errors
  | .VPORT_E_TX_DROPPED => st.tx_dropped
  | .VPORT_E_TX_ERROR => st.tx_errors

/-- The matching field of `err_stats` for an error kind. -/
def errField (k : VportErrType) (e : ErrStats) : Nat :=
  match k with
  | .VPORT_E_RX_DROPPED => e.rx_dropped
  | .VPORT_E_RX_ERROR => e.rx_errors
  | .VPORT_E_TX_DROPPED => e.tx_dropped
  | .VPORT_E_TX_ERROR => e.tx_errors

/-- Running byte offsets of a fragment train: `runningOffsets a [l1, l2, l3] =
[a, a + l1, a + l1 + l2]`. -/
def runningOffsets (acc : Nat) : List Nat → List Nat
  | [] => []
  | l :: ls => acc :: runningOffsets (acc + l) ls

/-! ### Arithmetic and bit-level helper lemmas -/

theorem usub32_eq {a b : Nat} (h : b ≤ a) (ha : a < 2 ^ 32) : usub32 a b = a - b := by
  have h2 : a + 2 ^ 32 - b = (a - b) + 2 ^ 32 := by omega
  rw [usub32, h2, Nat.add_mod_right]
  exact Nat.mod_eq_of_lt (by omega)

theorem sub_mod8 (v : Nat) : v - v % 8 = v / 8 * 8 := by omega

theorem lor_land_distrib (a b c : Nat) : (a ||| b) &&& c = (a &&& c) ||| (b &&& c) := by
  apply Nat.eq_of_testBit_eq
  intro i
  simp [Nat.testBit_lor, Nat.testBit_land, Bool.and_or_distrib_right]

theorem land_land_self (x m : Nat) : (x &&& m) &&& m = x &&& m := by
  rw [Nat.land_assoc]
  congr 1
  exact Nat.and_self m

theorem IP_OFFSET_testBit_13 : IP_OFFSET.testBit 13 = false := by decide

theorem IP_OFFSET_testBit_14 : IP_OFFSET.testBit 14 = false := by decide

theorem IP_MF_testBit_13 : IP_MF.testBit 13 = true := by decide

theorem IP_MF_testBit_14 : IP_MF.testBit 14 = false := by decide

theorem notMF_testBit_13 : ((0xFFFFFFFF : Nat) ^^^ IP_MF).testBit 13 = false := by decide

theorem notMF_testBit_14 : ((0xFFFFFFFF : Nat) ^^^ IP_MF).testBit 14 = true := by decide

theorem IP_MF_land_IP_OFFSET : IP_MF &&& IP_OFFSET = 0 := by decide

theorem notMF_land_IP_OFFSET : ((0xFFFFFFFF : Nat) ^^^ IP_MF) &&& IP_OFFSET = IP_OFFSET := by
  decide

theorem IP_DF_land_IP_OFFSET : IP_DF &&& IP_OFFSET = 0 := by decide

theorem dfbit_land_IP_OFFSET (x : Nat) : (x &&& IP_DF) &&& IP_OFFSET = 0 := by
  rw [Nat.land_assoc, IP_DF_land_IP_OFFSET, Nat.and_zero]

theorem dfbit_testBit_14 (x : Nat) : (x &&& IP_DF).testBit 14 = x.testBit 14 := by
  rw [Nat.testBit_land, show IP_DF.testBit 14 = true from by decide, Bool.and_true]

theorem flag_or_MF_mask {flag : Nat} (h : flag &&& IP_OFFSET = 0) :
    (flag ||| IP_MF) &&& IP_OFFSET = 0 := by
  rw [lor_land_distrib, h, IP_MF_land_IP_OFFSET, Nat.or_zero]

theorem flag_and_notMF_mask {flag : Nat} (h : flag &&& IP_OFFSET = 0) :
    (flag &&& (0xFFFFFFFF ^^^ IP_MF)) &&& IP_OFFSET = 0 := by
  rw [Nat.land_assoc, notMF_land_IP_OFFSET, h]

/-! ### The fragmentation-loop invariant -/

/-- What one run of the `ovs_vport_fragment` loop guarantees about the
fragment train it emits, when every allocation succeeds: non-emptiness iff
there was payload left, exact coverage of the payload slice, consistent
`tot_len`, full-size (`frag_max`) non-final fragments, the more-fragments bit
(bit 13) set on every fragment but the last and clear on the last, offsets
renumbered from the running byte count, and the don't-fragment bit (bit 14)
inherited from the threaded `flag`. -/
def FragsProp (pl : List Nat) (ip_hlen frag_max : Nat)
    (left frag_off flag : Nat) (fs : List Fragment) : Prop :=
  (fs = [] ↔ left = 0)
  ∧ (fs.map Fragment.payload).flatten = (pl.drop frag_off).take left
  ∧ (∀ f ∈ fs, f.tot_len = ip_hlen + f.payload.length)
  ∧ (∀ f ∈ fs.dropLast, f.payload.length = frag_max)
  ∧ (∀ f ∈ fs.dropLast, f.frag_off_field.testBit 13 = true)
  ∧ (∀ h : fs ≠ [], (fs.getLast h).frag_off_field.testBit 13 = false)
  ∧ fs.map (fun f => f.frag_off_field &&& IP_OFFSET)
      = (runningOffsets frag_off (fs.map (fun f => f.payload.length))).map
          (fun o => (o >>> 3) &&& IP_OFFSET)
  ∧ (∀ f ∈ fs, f.frag_off_field.testBit 14 = flag.testBit 14)

theorem FragsProp_nil (pl : List Nat) (ip_hlen frag_max frag_off flag : Nat) :
    FragsProp pl ip_hlen frag_max 0 frag_off flag [] := by
  refine ⟨by simp, by simp, by simp, by simp, by simp, ?_, by simp [runningOffsets], by simp⟩
  intro h
  exact absurd rfl h

theorem fragLoop_exit (pl : List Nat) (ip_hlen frag_max : Nat) (tci : Option Nat)
    (alloc : Nat → Bool) (sendRes : Nat → Int) (cpu : Nat)
    (fuel frag_off flag idx : Nat) (sent : Int) (st : VportState) :
    fragLoop pl ip_hlen frag_max tci alloc sendRes cpu fuel 0 frag_off flag idx sent st
      = some ⟨sent, st, [], 1, 0⟩ := by
  cases fuel <;> rfl

theorem fragLoop_succ (pl : List Nat) (ip_hlen frag_max : Nat) (tci : Option Nat)
    (alloc : Nat → Bool) (sendRes : Nat → Int) (cpu : Nat)
    (fuel left frag_off flag idx : Nat) (sent : Int) (st : VportState) :
    fragLoop pl ip_hlen frag_max tci alloc sendRes cpu (fuel + 1) left frag_off flag idx sent st
      = if left = 0 then some ⟨sent, st, [], 1, 0⟩
        else if alloc idx = false then some ⟨sent, st, [], 0, 0⟩
        else
          match fragLoop pl ip_hlen frag_max tci alloc sendRes cpu fuel
              (left - (if left > frag_max then frag_max else left))
              (frag_off + (if left > frag_max then frag_max else left))
              (if left > frag_max then flag ||| IP_MF else flag &&& (0xFFFFFFFF ^^^ IP_MF))
              (idx + 1)
              (__ovs_vport_send (sendRes idx) cpu st).1
              (__ovs_vport_send (sendRes idx) cpu st).2.1 with
          | none => none
          | some out =>
            some ⟨out.ret, out.st,
                  ({ ip_hlen := ip_hlen
                     tot_len := ip_hlen + (if left > frag_max then frag_max else left)
                     frag_off_field := ((frag_off >>> 3) &&& IP_OFFSET) |||
                       (if left > frag_max then flag ||| IP_MF
                        else flag &&& (0xFFFFFFFF ^^^ IP_MF))
                     payload := (pl.drop frag_off).take
                       (if left > frag_max then frag_max else left)
                     vlan_tci := tci } : Fragment) :: out.frags,
                  out.skbFreeCount, out.backendCalls + 1⟩ := rfl

theorem FragsProp_single (pl : List Nat) (ip_hlen frag_max : Nat) (tci : Option Nat)
    (left frag_off flag : Nat)
    (hl : left ≠ 0) (hflag : flag &&& IP_OFFSET = 0)
    (hlen : frag_off + left ≤ pl.length) :
    FragsProp pl ip_hlen frag_max left frag_off flag
      [{ ip_hlen := ip_hlen
         tot_len := ip_hlen + left
         frag_off_field := ((frag_off >>> 3) &&& IP_OFFSET) |||
           (flag &&& (0xFFFFFFFF ^^^ IP_MF))
         payload := (pl.drop frag_off).take left
         vlan_tci := tci }] := by
  refine ⟨by simp [hl], by simp, ?_, by simp, by simp, ?_, ?_, ?_⟩
  · intro f hf
    simp only [List.mem_singleton] at hf
    subst hf
    simp only [List.length_take, List.length_drop]
    omega
  · intro h
    simp only [List.getLast_singleton]
    rw [Nat.testBit_lor, Nat.testBit_land, Nat.testBit_land,
        IP_OFFSET_testBit_13, notMF_testBit_13]
    simp
  · simp only [List.map_cons, List.map_nil, runningOffsets]
    rw [lor_land_distrib, land_land_self, flag_and_notMF_mask hflag, Nat.or_zero]
  · intro f hf
    simp only [List.mem_singleton] at hf
    subst hf
    simp only
    rw [Nat.testBit_lor, Nat.testBit_land, Nat.testBit_land,
        IP_OFFSET_testBit_14, notMF_testBit_14]
    simp

theorem FragsProp_cons (pl : List Nat) (ip_hlen frag_max : Nat) (tci : Option Nat)
    (left frag_off flag : Nat) (fs : List Fragment)
    (hgt : frag_max < left) (hfm : 0 < frag_max) (hflag : flag &&& IP_OFFSET = 0)
    (hlen : frag_off + left ≤ pl.length)
    (hrest : FragsProp pl ip_hlen frag_max (left - frag_max) (frag_off + frag_max)
      (flag ||| IP_MF) fs) :
    FragsProp pl ip_hlen frag_max left frag_off flag
      ({ ip_hlen := ip_hlen
         tot_len := ip_hlen + frag_max
         frag_off_field := ((frag_off >>> 3) &&& IP_OFFSET) ||| (flag ||| IP_MF)
         payload := (pl.drop frag_off).take frag_max
         vlan_tci := tci } :: fs) := by
  obtain ⟨h1, h2, h3, h4, h5, h6, h7, h8⟩ := hrest
  have hne : fs ≠ [] := by
    intro he
    have := h1.mp he
    omega
  have hplen : ((pl.drop frag_off).take frag_max).length = frag_max := by
    simp only [List.length_take, List.length_drop]
    omega
  have hhead13 : (((frag_off >>> 3) &&& IP_OFFSET) ||| (flag ||| IP_MF)).testBit 13 = true := by
    rw [Nat.testBit_lor, Nat.testBit_land, Nat.testBit_lor,
        IP_OFFSET_testBit_13, IP_MF_testBit_13]
    simp
  have hhead14 : (((frag_off >>> 3) &&& IP_OFFSET) ||| (flag ||| IP_MF)).testBit 14
      = flag.testBit 14 := by
    rw [Nat.testBit_lor, Nat.testBit_land, Nat.testBit_lor,
        IP_OFFSET_testBit_14, IP_MF_testBit_14]
    simp
  refine ⟨by simp [show left ≠ 0 by omega], ?_, ?_, ?_, ?_, ?_, ?_, ?_⟩
  · simp only [List.map_cons, List.flatten_cons]
    rw [h2]
    rw [← List.drop_drop, ← List.take_add]
    congr 1
    omega
  · intro f hf
    rcases List.mem_cons.mp hf with hf | hf
    · subst hf
      simp only
      rw [hplen]
    · exact h3 f hf
  · rw [List.dropLast_cons_of_ne_nil hne]
    intro f hf
    rcases List.mem_cons.mp hf with hf | hf
    · subst hf
      exact hplen
    · exact h4 f hf
  · rw [List.dropLast_cons_of_ne_nil hne]
    intro f hf
    rcases List.mem_cons.mp hf with hf | hf
    · subst hf
      exact hhead13
    · exact h5 f hf
  · intro h
    rw [List.getLast_cons hne]
    exact h6 hne
  · simp only [List.map_cons, runningOffsets, hplen]
    rw [lor_land_distrib, land_land_self, flag_or_MF_mask hflag, Nat.or_zero, h7]
  · intro f hf
    rcases List.mem_cons.mp hf with hf | hf
    · subst hf
      exact hhead14
    · rw [h8 f hf, Nat.testBit_lor, IP_MF_testBit_14]
      simp

/-- Master specification of the fragmentation loop when every allocation
succeeds: the loop terminates within `left` iterations, frees the original
skb exactly once, and its fragment train satisfies `FragsProp`. -/
theorem fragLoop_spec (pl : List Nat) (ip_hlen frag_max : Nat) (tci : Option Nat)
    (alloc : Nat → Bool) (sendRes : Nat → Int) (cpu : Nat)
    (halloc : ∀ i, alloc i = true) (hfm : 0 < frag_max) :
    ∀ fuel left frag_off flag idx sent st, left ≤ fuel →
      frag_off + left ≤ pl.length → flag &&& IP_OFFSET = 0 →
      ∃ out,
        fragLoop pl ip_hlen frag_max tci alloc sendRes cpu fuel left frag_off flag idx sent st
          = some out
        ∧ out.skbFreeCount = 1
        ∧ FragsProp pl ip_hlen frag_max left frag_off flag out.frags := by
  intro fuel
  induction fuel with
  | zero =>
    intro left frag_off flag idx sent st hle hlen hflag
    have hl0 : left = 0 := Nat.le_zero.mp hle
    subst hl0
    exact ⟨⟨sent, st, [], 1, 0⟩, fragLoop_exit .., rfl,
      FragsProp_nil pl ip_hlen frag_max frag_off flag⟩
  | succ fuel ih =>
    intro left frag_off flag idx sent st hle hlen hflag
    by_cases hl : left = 0
    · subst hl
      exact ⟨⟨sent, st, [], 1, 0⟩, fragLoop_exit .., rfl,
        FragsProp_nil pl ip_hlen frag_max frag_off flag⟩
    · have halloci : ¬ alloc idx = false := by
        rw [halloc idx]
        simp
      rw [fragLoop_succ, if_neg hl, if_neg halloci]
      by_cases hgt : left > frag_max
      · simp only [if_pos hgt]
        obtain ⟨out', heq', hfree', hprop'⟩ :=
          ih (left - frag_max) (frag_off + frag_max) (flag ||| IP_MF) (idx + 1)
            (__ovs_vport_send (sendRes idx) cpu st).1
            (__ovs_vport_send (sendRes idx) cpu st).2.1
            (by omega) (by omega) (flag_or_MF_mask hflag)
        rw [heq']
        refine ⟨_, rfl, hfree', ?_⟩
        exact FragsProp_cons pl ip_hlen frag_max tci left frag_off flag out'.frags
          hgt hfm hflag hlen hprop'
      · simp only [if_neg hgt]
        rw [Nat.sub_self, fragLoop_exit]
        refine ⟨_, rfl, rfl, ?_⟩
        exact FragsProp_single pl ip_hlen frag_max tci left frag_off flag hl hflag hlen

/-- Unfolding of `ovs_vport_fragment` into the loop when the `unsigned int`
subtractions do not wrap. -/
theorem ovs_vport_fragment_eq (skb : SkBuff) (fms mtu : Nat) (alloc : Nat → Bool)
    (sendRes : Nat → Int) (cpu : Nat) (st : VportState) (c : Nat)
    (hc : (if fms > 0 then fms else mtu) = c)
    (hihl : skb.ip.ihl ≤ c) (hc32 : c < 2 ^ 32)
    (hit : skb.ip.ihl ≤ skb.ip.tot_len) (htl : skb.ip.tot_len < 2 ^ 32) :
    ovs_vport_fragment skb fms mtu alloc sendRes cpu st
      = fragLoop skb.payload skb.ip.ihl
          ((c - skb.ip.ihl) - (c - skb.ip.ihl) % 8) skb.hwaccel_tci alloc sendRes cpu
          (skb.ip.tot_len - skb.ip.ihl) (skb.ip.tot_len - skb.ip.ihl) 0
          (skb.ip.frag_off &&& IP_DF) 0 0 st := by
  show fragLoop skb.payload skb.ip.ihl
      (usub32 (if fms > 0 then fms else mtu) skb.ip.ihl
        - usub32 (if fms > 0 then fms else mtu) skb.ip.ihl % 8)
      skb.hwaccel_tci alloc sendRes cpu
      (usub32 skb.ip.tot_len skb.ip.ihl) (usub32 skb.ip.tot_len skb.ip.ihl) 0
      (skb.ip.frag_off &&& IP_DF) 0 0 st = _
  rw [hc, usub32_eq hihl hc32, usub32_eq hit htl]

/-- C3: For every oversize IPv4 packet fragmented by `ovs_vport_fragment` with
all fragment allocations succeeding, where the fragmentation ceiling `c`
(override if positive, else mtu) leaves at least one 8-byte unit of room after
the IP header: the loop terminates, emits at least one fragment, each
non-final fragment carries exactly `(c - ip_hlen)` rounded down to a multiple
of 8 payload bytes, concatenating the payloads in order reconstructs the
original IP payload, each fragment's `tot_len` is `ip_hlen` plus its payload
length, the more-fragments bit (bit 13) is set on every fragment but the
last, and clear on the last. -/
theorem ovs_vport_fragment_shape (skb : SkBuff) (fms mtu : Nat) (alloc : Nat → Bool)
    (sendRes : Nat → Int) (cpu : Nat) (st : VportState) (c : Nat)
    (hc : (if fms > 0 then fms else mtu) = c)
    (hihl8 : skb.ip.ihl + 8 ≤ c) (hc32 : c < 2 ^ 32)
    (hover : c < skb.ip.tot_len) (htl : skb.ip.tot_len < 2 ^ 32)
    (hpl : skb.payload.length = skb.ip.tot_len - skb.ip.ihl)
    (halloc : ∀ i, alloc i = true) :
    ∃ out, ovs_vport_fragment skb fms mtu alloc sendRes cpu st = some out
      ∧ out.frags ≠ []
      ∧ (∀ f ∈ out.frags.dropLast, f.payload.length = (c - skb.ip.ihl) / 8 * 8)
      ∧ (out.frags.map Fragment.payload).flatten = skb.payload
      ∧ (∀ f ∈ out.frags, f.tot_len = skb.ip.ihl + f.payload.length)
      ∧ (∀ f ∈ out.frags.dropLast, f.frag_off_field.testBit 13 = true)
      ∧ (∀ h : out.frags ≠ [], (out.frags.getLast h).frag_off_field.testBit 13 = false) := by
  have hihl : skb.ip.ihl ≤ c := by omega
  have hit : skb.ip.ihl ≤ skb.ip.tot_len := by omega
  have hfm : 0 < (c - skb.ip.ihl) - (c - skb.ip.ihl) % 8 := by omega
  obtain ⟨out, heq, hfree, hprop⟩ :=
    fragLoop_spec skb.payload skb.ip.ihl ((c - skb.ip.ihl) - (c - skb.ip.ihl) % 8)
      skb.hwaccel_tci alloc sendRes cpu halloc hfm
      (skb.ip.tot_len - skb.ip.ihl) (skb.ip.tot_len - skb.ip.ihl) 0
      (skb.ip.frag_off &&& IP_DF) 0 0 st le_rfl (by omega) (dfbit_land_IP_OFFSET _)
  unfold FragsProp at hprop
  obtain ⟨h1, h2, h3, h4, h5, h6, h7, h8⟩ := hprop
  refine ⟨out, ?_, ?_, ?_, ?_, h3, h5, h6⟩
  · rw [ovs_vport_fragment_eq skb fms mtu alloc sendRes cpu st c hc hihl hc32 hit htl]
    exact heq
  · intro he
    have := h1.mp he
    omega
  · intro f hf
    rw [h4 f hf, sub_mod8]
  · rw [h2, List.drop_zero, ← hpl, List.take_length]

/-- C10: `ovs_vport_fragment` discards the original fragment-offset field.
Every emitted fragment's offset bits are computed solely from the running
count of payload bytes already emitted, starting at 0 and divided by 8; the
don't-fragment bit (bit 14) of each fragment equals the original header's
bit 14; and the whole result is invariant under replacing the original
`frag_off` field by any value with the same don't-fragment bit — so a
datagram that was itself a fragment with a nonzero offset is silently
renumbered from zero. -/
theorem ovs_vport_fragment_renumbers (skb : SkBuff) (fms mtu : Nat) (alloc : Nat → Bool)
    (sendRes : Nat → Int) (cpu : Nat) (st : VportState) (c : Nat)
    (hc : (if fms > 0 then fms else mtu) = c)
    (hihl8 : skb.ip.ihl + 8 ≤ c) (hc32 : c < 2 ^ 32)
    (hit : skb.ip.ihl ≤ skb.ip.tot_len) (htl : skb.ip.tot_len < 2 ^ 32)
    (hpl : skb.payload.length = skb.ip.tot_len - skb.ip.ihl)
    (halloc : ∀ i, alloc i = true) :
    (∃ out, ovs_vport_fragment skb fms mtu alloc sendRes cpu st = some out
      ∧ out.frags.map (fun f => f.frag_off_field &&& IP_OFFSET)
          = (runningOffsets 0 (out.frags.map (fun f => f.payload.length))).map
              (fun o => (o >>> 3) &&& IP_OFFSET)
      ∧ (∀ f ∈ out.frags, f.frag_off_field.testBit 14 = skb.ip.frag_off.testBit 14))
    ∧ (∀ fo2, fo2 &&& IP_DF = skb.ip.frag_off &&& IP_DF →
        ovs_vport_fragment { skb with ip := { skb.ip with frag_off := fo2 } }
            fms mtu alloc sendRes cpu st
          = ovs_vport_fragment skb fms mtu alloc sendRes cpu st) := by
  have hihl : skb.ip.ihl ≤ c := by omega
  have hfm : 0 < (c - skb.ip.ihl) - (c - skb.ip.ihl) % 8 := by omega
  constructor
  · obtain ⟨out, heq, hfree, hprop⟩ :=
      fragLoop_spec skb.payload skb.ip.ihl ((c - skb.ip.ihl) - (c - skb.ip.ihl) % 8)
        skb.hwaccel_tci alloc sendRes cpu halloc hfm
        (skb.ip.tot_len - skb.ip.ihl) (skb.ip.tot_len - skb.ip.ihl) 0
        (skb.ip.frag_off &&& IP_DF) 0 0 st le_rfl (by omega) (dfbit_land_IP_OFFSET _)
    unfold FragsProp at hprop
    obtain ⟨h1, h2, h3, h4, h5, h6, h7, h8⟩ := hprop
    refine ⟨out, ?_, h7, ?_⟩
    · rw [ovs_vport_fragment_eq skb fms mtu alloc sendRes cpu st c hc hihl hc32 hit htl]
      exact heq
    · intro f hf
      rw [h8 f hf, dfbit_testBit_14]
  · intro fo2 hdf
    show fragLoop skb.payload skb.ip.ihl _ skb.hwaccel_tci alloc sendRes cpu
        (usub32 skb.ip.tot_len skb.ip.ihl) (usub32 skb.ip.tot_len skb.ip.ihl) 0
        (fo2 &&& IP_DF) 0 0 st
      = fragLoop skb.payload skb.ip.ihl _ skb.hwaccel_tci alloc sendRes cpu
        (usub32 skb.ip.tot_len skb.ip.ihl) (usub32 skb.ip.tot_len skb.ip.ihl) 0
        (skb.ip.frag_off &&& IP_DF) 0 0 st
    rw [hdf]

/-- The mtu argument of `ovs_vport_fragment` is irrelevant once the per-packet
override is positive: the ceiling comes from `frag_max_size` alone. -/
theorem ovs_vport_fragment_mtu_irrel (skb : SkBuff) (fms m1 m2 : Nat) (alloc : Nat → Bool)
    (sendRes : Nat → Int) (cpu : Nat) (st : VportState) (h : 0 < fms) :
    ovs_vport_fragment skb fms m1 alloc sendRes cpu st
      = ovs_vport_fragment skb fms m2 alloc sendRes cpu st := by
  show fragLoop skb.payload skb.ip.ihl
      (usub32 (if fms > 0 then fms else m1) skb.ip.ihl
        - usub32 (if fms > 0 then fms else m1) skb.ip.ihl % 8)
      skb.hwaccel_tci alloc sendRes cpu _ _ 0 _ 0 0 st
    = fragLoop skb.payload skb.ip.ihl
      (usub32 (if fms > 0 then fms else m2) skb.ip.ihl
        - usub32 (if fms > 0 then fms else m2) skb.ip.ihl % 8)
      skb.hwaccel_tci alloc sendRes cpu _ _ 0 _ 0 0 st
  rw [if_pos h, if_pos h]

/-- C2: whenever the per-packet `frag_max_size` override is positive,
`ovs_vport_send` takes the fragmentation exit, and the outcome is that of
`ovs_vport_fragment` driven purely by the override — the same for every
device MTU value. -/
theorem ovs_vport_send_override (vp : Vport) (skb : SkBuff) (fms : Nat) (cowOk : Bool)
    (alloc : Nat → Bool) (sendRes : Nat → Int) (cpu : Nat) (st : VportState)
    (h : 0 < fms) :
    (ovs_vport_send vp skb fms cowOk alloc sendRes cpu st).1 = SendPath.fragPath ∧
    ∀ m, (ovs_vport_send vp skb fms cowOk alloc sendRes cpu st).2
        = ovs_vport_fragment skb fms m alloc sendRes cpu st := by
  constructor
  · simp only [ovs_vport_send, if_pos h]
  · intro m
    simp only [ovs_vport_send, if_pos h]
    exact ovs_vport_fragment_mtu_irrel skb fms _ m alloc sendRes cpu st h

/-- C1: for a plain (untagged) IPv4 packet with no per-packet override and a
nonzero device MTU, `ovs_vport_send` takes either the direct or the
fragmentation exit, and it takes the fragmentation exit exactly when the
don't-fragment flag is clear and the IP total length strictly exceeds the
MTU; with the flag set, or total length at most the MTU (equality included),
the packet goes out directly. -/
theorem ovs_vport_send_plain_ipv4 (vp : Vport) (skb : SkBuff) (cowOk : Bool)
    (alloc : Nat → Bool) (sendRes : Nat → Int) (cpu : Nat) (st : VportState)
    (hty : vp.type = VportType.OVS_VPORT_TYPE_NETDEV
      ∨ vp.type = VportType.OVS_VPORT_TYPE_INTERNAL)
    (hmtu : 0 < vp.dev_mtu)
    (hproto : skb.h_proto = ETH_P_IP) :
    ((ovs_vport_send vp skb 0 cowOk alloc sendRes cpu st).1 = SendPath.fragPath
      ↔ (skb.ip.frag_off &&& IP_DF = 0 ∧ vp.dev_mtu < skb.ip.tot_len)) ∧
    ((ovs_vport_send vp skb 0 cowOk alloc sendRes cpu st).1 = SendPath.fragPath
      ∨ (ovs_vport_send vp skb 0 cowOk alloc sendRes cpu st).1 = SendPath.direct) := by
  simp only [ovs_vport_send, if_pos hty]
  rw [if_neg (by omega : ¬ (0 : Nat) > 0), if_neg (by omega : ¬ vp.dev_mtu = 0),
      if_pos hproto]
  by_cases hdf : skb.ip.frag_off &&& IP_DF = 0
  · rw [if_neg (by simpa using hdf)]
    by_cases hsz : skb.ip.tot_len > vp.dev_mtu
    · rw [if_pos hsz]
      simp [hdf, hsz]
    · rw [if_neg hsz]
      simp only [not_lt] at hsz
      constructor
      · constructor
        · intro hp
          exact absurd hp (by simp)
        · intro ⟨_, hlt⟩
          omega
      · right
        rfl
  · rw [if_pos (by simpa using hdf)]
    constructor
    · constructor
      · intro hp
        exact absurd hp (by simp)
      · intro ⟨h0, _⟩
        exact absurd h0 hdf
    · right
      rfl

/-- C6: a direct send through `__ovs_vport_send` passes the backend result
through unchanged; a positive result `n` bumps this cpu's tx_packets by 1 and
tx_bytes by `n` and touches no error counter and does not free the skb; a
negative result bumps tx_errors by 1 (and no other error counter), leaves the
per-cpu accumulators alone and frees the skb; a zero result bumps tx_dropped
by 1 (and no other error counter), leaves the accumulators alone and does not
free the skb. -/
theorem ovs_vport_direct_send_stats (sent : Int) (cpu : Nat) (s : VportState)
    (h1 : (s.pcpu cpu).tx_packets + 1 < 2 ^ 64)
    (h2 : (s.pcpu cpu).tx_bytes + sent.toNat < 2 ^ 64)
    (h3 : s.err_stats.tx_errors + 1 < 2 ^ 64)
    (h4 : s.err_stats.tx_dropped + 1 < 2 ^ 64) :
    (__ovs_vport_send sent cpu s).1 = sent ∧
    (0 < sent →
      ((__ovs_vport_send sent cpu s).2.1.pcpu cpu).tx_packets
          = (s.pcpu cpu).tx_packets + 1 ∧
      ((__ovs_vport_send sent cpu s).2.1.pcpu cpu).tx_bytes
          = (s.pcpu cpu).tx_bytes + sent.toNat ∧
      (__ovs_vport_send sent cpu s).2.1.err_stats = s.err_stats ∧
      (__ovs_vport_send sent cpu s).2.2 = false) ∧
    (sent < 0 →
      (__ovs_vport_send sent cpu s).2.1.err_stats.tx_errors
          = s.err_stats.tx_errors + 1 ∧
      (__ovs_vport_send sent cpu s).2.1.err_stats.tx_dropped = s.err_stats.tx_dropped ∧
      (__ovs_vport_send sent cpu s).2.1.err_stats.rx_errors = s.err_stats.rx_errors ∧
      (__ovs_vport_send sent cpu s).2.1.err_stats.rx_dropped = s.err_stats.rx_dropped ∧
      (__ovs_vport_send sent cpu s).2.1.pcpu = s.pcpu ∧
      (__ovs_vport_send sent cpu s).2.2 = true) ∧
    (sent = 0 →
      (__ovs_vport_send sent cpu s).2.1.err_stats.tx_dropped
          = s.err_stats.tx_dropped + 1 ∧
      (__ovs_vport_send sent cpu s).2.1.err_stats.tx_errors = s.err_stats.tx_errors ∧
      (__ovs_vport_send sent cpu s).2.1.err_stats.rx_errors = s.err_stats.rx_errors ∧
      (__ovs_vport_send sent cpu s).2.1.err_stats.rx_dropped = s.err_stats.rx_dropped ∧
      (__ovs_vport_send sent cpu s).2.1.pcpu = s.pcpu ∧
      (__ovs_vport_send sent cpu s).2.2 = false) := by
  refine ⟨?_, ?_, ?_, ?_⟩
  · unfold __ovs_vport_send
    split
    · rfl
    · split <;> rfl
  · intro h
    simp [__ovs_vport_send, if_pos h, addu64, Nat.mod_eq_of_lt h1, Nat.mod_eq_of_lt h2]
    omega
  · intro h
    simp [__ovs_vport_send, if_neg (by omega : ¬ sent > 0), if_pos h,
      ovs_vport_record_error, addu64, Nat.mod_eq_of_lt h3]
    omega
  · intro h
    subst h
    simp [__ovs_vport_send, ovs_vport_record_error, addu64, Nat.mod_eq_of_lt h4]
    omega

/-- The per-cpu summation loop of `ovs_vport_get_stats` never touches the
error fields of the accumulator. -/
theorem foldl_pcpuAdd_errs (g : Nat → PcpuStats) :
    ∀ (l : List Nat) (acc : OvsVportStats),
      (l.foldl (fun a i => pcpuAdd a (g i)) acc).rx_errors = acc.rx_errors
      ∧ (l.foldl (fun a i => pcpuAdd a (g i)) acc).tx_errors = acc.tx_errors
      ∧ (l.foldl (fun a i => pcpuAdd a (g i)) acc).rx_dropped = acc.rx_dropped
      ∧ (l.foldl (fun a i => pcpuAdd a (g i)) acc).tx_dropped = acc.tx_dropped
  | [], acc => ⟨rfl, rfl, rfl, rfl⟩
  | i :: l, acc => by
    simp only [List.foldl_cons]
    exact foldl_pcpuAdd_errs g l (pcpuAdd acc (g i))

/-- The error counter a `get_stats` snapshot reports for kind `k` is the
offset baseline plus the accumulated `err_stats` field, added as `u64`. -/
theorem get_stats_err (k : VportErrType) (s : VportState) :
    errCounter k (ovs_vport_get_stats s)
      = addu64 (errCounter k s.offset_stats) (errField k s.err_stats) := by
  obtain ⟨e1, e2, e3, e4⟩ := foldl_pcpuAdd_errs s.pcpu (List.range s.ncpu)
    { s.offset_stats with
      rx_errors := addu64 s.offset_stats.rx_errors s.err_stats.rx_errors
      tx_errors := addu64 s.offset_stats.tx_errors s.err_stats.tx_errors
      tx_dropped := addu64 s.offset_stats.tx_dropped s.err_stats.tx_dropped
      rx_dropped := addu64 s.offset_stats.rx_dropped s.err_stats.rx_dropped }
  cases k <;> simp only [ovs_vport_get_stats, errCounter, errField, e1, e2, e3, e4]

theorem record_error_offset (k : VportErrType) (s : VportState) :
    (ovs_vport_record_error k s).offset_stats = s.offset_stats := by
  cases k <;> rfl

theorem record_error_pcpu (k : VportErrType) (s : VportState) :
    (ovs_vport_record_error k s).pcpu = s.pcpu := by
  cases k <;> rfl

theorem record_error_ncpu (k : VportErrType) (s : VportState) :
    (ovs_vport_record_error k s).ncpu = s.ncpu := by
  cases k <;> rfl

theorem record_error_self (k : VportErrType) (s : VportState) :
    errField k (ovs_vport_record_error k s).err_stats
      = addu64 (errField k s.err_stats) 1 := by
  cases k <;> rfl

theorem record_error_other (k k' : VportErrType) (s : VportState) (h : k' ≠ k) :
    errField k' (ovs_vport_record_error k s).err_stats = errField k' s.err_stats := by
  cases k <;> cases k' <;> first | rfl | exact absurd rfl h

theorem recordErrorN_offset (k : VportErrType) (N : Nat) (s : VportState) :
    (recordErrorN k N s).offset_stats = s.offset_stats := by
  induction N with
  | zero => rfl
  | succ n ih => rw [recordErrorN, record_error_offset, ih]

theorem recordErrorN_pcpu (k : VportErrType) (N : Nat) (s : VportState) :
    (recordErrorN k N s).pcpu = s.pcpu := by
  induction N with
  | zero => rfl
  | succ n ih => rw [recordErrorN, record_error_pcpu, ih]

theorem recordErrorN_ncpu (k : VportErrType) (N : Nat) (s : VportState) :
    (recordErrorN k N s).ncpu = s.ncpu := by
  induction N with
  | zero => rfl
  | succ n ih => rw [recordErrorN, record_error_ncpu, ih]

theorem recordErrorN_errField (k : VportErrType) (N : Nat) (s : VportState)
    (h : errField k s.err_stats + N < 2 ^ 64) :
    errField k (recordErrorN k N s).err_stats = errField k s.err_stats + N := by
  induction N with
  | zero => rfl
  | succ n ih =>
    rw [recordErrorN, record_error_self, ih (by omega)]
    unfold addu64
    rw [Nat.mod_eq_of_lt (by omega)]
    omega

theorem recordErrorN_errField_other (k k' : VportErrType) (N : Nat) (s : VportState)
    (h : k' ≠ k) :
    errField k' (recordErrorN k N s).err_stats = errField k' s.err_stats := by
  induction N with
  | zero => rfl
  | succ n ih => rw [recordErrorN, record_error_other k k' _ h, ih]

/-- C7: calling `ovs_vport_record_error` `N` times with one kind makes a
subsequent `ovs_vport_get_stats` report exactly `+N` on the corresponding
error counter, and exactly the old value on every other error counter. -/
theorem ovs_vport_record_error_exact (k : VportErrType) (N : Nat) (s : VportState)
    (hov : errCounter k s.offset_stats + errField k s.err_stats + N < 2 ^ 64) :
    errCounter k (ovs_vport_get_stats (recordErrorN k N s))
      = errCounter k (ovs_vport_get_stats s) + N ∧
    ∀ k', k' ≠ k →
      errCounter k' (ovs_vport_get_stats (recordErrorN k N s))
        = errCounter k' (ovs_vport_get_stats s) := by
  constructor
  · rw [get_stats_err, get_stats_err, recordErrorN_offset,
      recordErrorN_errField k N s (by omega)]
    unfold addu64
    rw [Nat.mod_eq_of_lt (by omega), Nat.mod_eq_of_lt (by omega)]
    omega
  · intro k' hne
    rw [get_stats_err, get_stats_err, recordErrorN_offset,
      recordErrorN_errField_other k k' N s hne]

/-- Summing all-zero per-cpu accumulators leaves the (in-range) accumulator
unchanged. -/
theorem foldl_pcpuAdd_zero (g : Nat → PcpuStats) :
    ∀ (l : List Nat) (acc : OvsVportStats),
      (∀ i ∈ l, g i = ⟨0, 0, 0, 0⟩) →
      acc.rx_packets < 2 ^ 64 → acc.rx_bytes < 2 ^ 64 →
      acc.tx_packets < 2 ^ 64 → acc.tx_bytes < 2 ^ 64 →
      l.foldl (fun a i => pcpuAdd a (g i)) acc = acc
  | [], _, _, _, _, _, _ => rfl
  | i :: l, acc, hz, ha, hb, hc, hd => by
    simp only [List.foldl_cons]
    have hstep : pcpuAdd acc (g i) = acc := by
      rw [hz i (List.mem_cons_self i l)]
      unfold pcpuAdd addu64
      ext <;> simp <;> omega
    rw [hstep]
    exact foldl_pcpuAdd_zero g l acc (fun j hj => hz j (List.mem_cons_of_mem i hj))
      ha hb hc hd

/-- C8: with zero accumulated error counters and zero per-context
accumulators, `ovs_vport_set_stats S` followed immediately by
`ovs_vport_get_stats` returns exactly `S` (each field of `S` being a `u64`
value). -/
theorem ovs_vport_set_get_roundtrip (S : OvsVportStats) (s : VportState)
    (herr : s.err_stats = ⟨0, 0, 0, 0⟩)
    (hp : ∀ i, i < s.ncpu → s.pcpu i = ⟨0, 0, 0, 0⟩)
    (hb1 : S.rx_packets < 2 ^ 64) (hb2 : S.tx_packets < 2 ^ 64)
    (hb3 : S.rx_bytes < 2 ^ 64) (hb4 : S.tx_bytes < 2 ^ 64)
    (hb5 : S.rx_errors < 2 ^ 64) (hb6 : S.tx_errors < 2 ^ 64)
    (hb7 : S.rx_dropped < 2 ^ 64) (hb8 : S.tx_dropped < 2 ^ 64) :
    ovs_vport_get_stats (ovs_vport_set_stats S s) = S := by
  simp only [ovs_vport_set_stats, ovs_vport_get_stats]
  rw [herr]
  have hS : ({ S with
      rx_errors := addu64 S.rx_errors 0
      tx_errors := addu64 S.tx_errors 0
      tx_dropped := addu64 S.tx_dropped 0
      rx_dropped := addu64 S.rx_dropped 0 } : OvsVportStats) = S := by
    unfold addu64
    ext <;> simp <;> omega
  rw [hS]
  exact foldl_pcpuAdd_zero s.pcpu (List.range s.ncpu) S
    (fun i hi => hp i (List.mem_range.mp hi)) hb1 hb3 hb2 hb4

/-- If no entry of the ops list matches the requested type, the scan loop
falls off the end: `-EAFNOSUPPORT`, registry untouched. -/
theorem vportAddLoop_no_match (hash : Nat → String → Nat) (reg : Registry)
    (ptype : VportType) (pname : String) (pnet : Nat) :
    ∀ opsList : List VportOpsEntry, (∀ e ∈ opsList, e.type ≠ ptype) →
      vportAddLoop hash reg ptype pname pnet opsList
        = (Except.error (-EAFNOSUPPORT), reg)
  | [], _ => rfl
  | e :: rest, h => by
    show (if e.type = ptype then _ else vportAddLoop hash reg ptype pname pnet rest) = _
    rw [if_neg (h e (List.mem_cons_self e rest))]
    exact vportAddLoop_no_match hash reg ptype pname pnet rest
      (fun e' he' => h e' (List.mem_cons_of_mem e he'))

/-- C9: an add request whose port type matches no compiled-in backend entry
returns the `-EAFNOSUPPORT` error — a code distinct from resource exhaustion
(`-ENOMEM`) — and leaves every registry bucket unchanged, so no lookup result
changes. -/
theorem ovs_vport_add_unsupported (hash : Nat → String → Nat)
    (opsList : List VportOpsEntry) (reg : Registry) (ptype : VportType)
    (pname : String) (pnet : Nat)
    (h : ∀ e ∈ opsList, e.type ≠ ptype) :
    (ovs_vport_add hash opsList reg ptype pname pnet).1
        = Except.error (-EAFNOSUPPORT) ∧
    (ovs_vport_add hash opsList reg ptype pname pnet).2 = reg ∧
    (-EAFNOSUPPORT : Int) ≠ -ENOMEM ∧
    ∀ net name,
      ovs_vport_locate hash (ovs_vport_add hash opsList reg ptype pname pnet).2 net name
        = ovs_vport_locate hash reg net name := by
  have key := vportAddLoop_no_match hash reg ptype pname pnet opsList h
  refine ⟨?_, ?_, by decide, ?_⟩
  · rw [ovs_vport_add, key]
  · rw [ovs_vport_add, key]
  · intro net name
    rw [ovs_vport_add, key]

/-! ### Concrete fixtures for witnesses and failing-input evaluations -/

/-- A zeroed two-cpu statistics state. -/
def stZero : VportState := ⟨2, ⟨0, 0, 0, 0, 0, 0, 0, 0⟩, ⟨0, 0, 0, 0⟩, fun _ => ⟨0, 0, 0, 0⟩⟩

/-- Allocation oracle: every `alloc_skb` succeeds. -/
def allocAll : Nat → Bool := fun _ => true

/-- Allocation oracle: only the first `alloc_skb` succeeds. -/
def allocOnlyFirst : Nat → Bool := fun i => i == 0

/-- Allocation oracle: every `alloc_skb` fails. -/
def allocNone : Nat → Bool := fun _ => false

/-- Backend oracle: every `send` reports 8 bytes sent. -/
def sendEight : Nat → Int := fun _ => 8

/-- Plain IPv4 packet: 20-byte header, total length 48, 28 payload bytes. -/
def skbPlain : SkBuff := ⟨ETH_P_IP, 0, 0, none, ⟨20, 48, 0⟩, List.replicate 28 3⟩

/-- Plain IPv4 packet of total length 1000 (the override scenario). -/
def skbOverride : SkBuff := ⟨ETH_P_IP, 0, 0, none, ⟨20, 1000, 0⟩, List.replicate 980 1⟩

/-- Plain IPv4 packet one byte over a 1500 MTU. -/
def skbOneOver : SkBuff := ⟨ETH_P_IP, 0, 0, none, ⟨20, 1501, 0⟩, []⟩

/-- VLAN-tagged IPv4 packet, total length 2000, don't-fragment clear. -/
def skbVlanBig : SkBuff := ⟨ETH_P_8021Q, ETH_P_IP, 5, none, ⟨20, 2000, 0⟩, []⟩

/-- VLAN-tagged IPv4 packet, total length 48 (oversize for a 28-byte MTU). -/
def skbVlanSmall : SkBuff := ⟨ETH_P_8021Q, ETH_P_IP, 5, none, ⟨20, 48, 0⟩, List.replicate 28 3⟩

/-- A device-backed vport with MTU 1500. -/
def vpNet1500 : Vport := ⟨.OVS_VPORT_TYPE_NETDEV, 1500⟩

/-- A device-backed vport with MTU 28. -/
def vpNet28 : Vport := ⟨.OVS_VPORT_TYPE_NETDEV, 28⟩

/-- C4 (failing-input evaluation): `ovs_vport_fragment` on a 28-byte-payload
IPv4 packet with an 8-byte fragment unit.  If the second fragment allocation
fails, the loop stops after one sent fragment and returns that send's result
(8), but the original skb is freed ZERO times; if the first allocation fails,
it returns 0 with no backend call and again zero frees; only the run in which
every allocation succeeds frees the original exactly once. -/
theorem ovs_vport_fragment_alloc_failure_leak :
    ((ovs_vport_fragment skbPlain 0 28 allocOnlyFirst sendEight 0 stZero).map
      (fun o => (o.ret, o.frags.length, o.skbFreeCount, o.backendCalls))
      = some (8, 1, 0, 1)) ∧
    ((ovs_vport_fragment skbPlain 0 28 allocNone sendEight 0 stZero).map
      (fun o => (o.ret, o.frags.length, o.skbFreeCount, o.backendCalls))
      = some (0, 0, 0, 0)) ∧
    ((ovs_vport_fragment skbPlain 0 28 allocAll sendEight 0 stZero).map
      (fun o => (o.ret, o.frags.length, o.skbFreeCount, o.backendCalls))
      = some (8, 4, 1, 4)) := by
  refine ⟨?_, ?_, ?_⟩ <;> decide

/-- C5 (failing-input evaluation): an oversize VLAN-tagged IPv4 packet with
the don't-fragment flag clear.  When `skb_cow_head` inside `ovs_vlan_untag`
fails, `ovs_vport_send` takes the VLAN-failure exit and returns 0 with NO
backend call and ZERO frees of the packet buffer.  When stripping succeeds,
the send takes the fragmentation path and the fragments carry the re-applied
VLAN tag, with the original freed exactly once. -/
theorem ovs_vport_send_vlan_untag_failure :
    ((ovs_vport_send vpNet1500 skbVlanBig 0 false allocAll sendEight 0 stZero).1
        = SendPath.vlanFailDrop) ∧
    ((ovs_vport_send vpNet1500 skbVlanBig 0 false allocAll sendEight 0 stZero).2.map
      (fun o => (o.ret, o.frags, o.skbFreeCount, o.backendCalls))
      = some (0, [], 0, 0)) ∧
    ((ovs_vport_send vpNet28 skbVlanSmall 0 true allocAll sendEight 0 stZero).1
        = SendPath.fragPath) ∧
    ((ovs_vport_send vpNet28 skbVlanSmall 0 true allocAll sendEight 0 stZero).2.map
      (fun o => (o.frags.map (fun f => (f.payload.length, f.vlan_tci)),
                 o.skbFreeCount, o.backendCalls))
      = some ([(8, some 5), (8, some 5), (8, some 5), (4, some 5)], 1, 4)) := by
  refine ⟨?_, ?_, ?_, ?_⟩ <;> decide

/-! ### Witnesses: each hypothesised claim theorem applied at a concrete input -/

theorem ovs_vport_send_plain_ipv4_witness :
    (vpNet1500.type = VportType.OVS_VPORT_TYPE_NETDEV
      ∨ vpNet1500.type = VportType.OVS_VPORT_TYPE_INTERNAL)
    ∧ 0 < vpNet1500.dev_mtu
    ∧ skbOneOver.h_proto = ETH_P_IP
    ∧ (((ovs_vport_send vpNet1500 skbOneOver 0 true allocAll sendEight 0 stZero).1
          = SendPath.fragPath
        ↔ (skbOneOver.ip.frag_off &&& IP_DF = 0
          ∧ vpNet1500.dev_mtu < skbOneOver.ip.tot_len))
      ∧ ((ovs_vport_send vpNet1500 skbOneOver 0 true allocAll sendEight 0 stZero).1
            = SendPath.fragPath
        ∨ (ovs_vport_send vpNet1500 skbOneOver 0 true allocAll sendEight 0 stZero).1
            = SendPath.direct)) :=
  ⟨by decide, by decide, by decide,
    ovs_vport_send_plain_ipv4 vpNet1500 skbOneOver true allocAll sendEight 0 stZero
      (by decide) (by decide) (by decide)⟩

theorem ovs_vport_send_override_witness :
    (0 : Nat) < 600
    ∧ ((ovs_vport_send vpNet1500 skbOverride 600 true allocAll sendEight 0 stZero).1
          = SendPath.fragPath
      ∧ ∀ m, (ovs_vport_send vpNet1500 skbOverride 600 true allocAll sendEight 0 stZero).2
          = ovs_vport_fragment skbOverride 600 m allocAll sendEight 0 stZero) :=
  ⟨by decide,
    ovs_vport_send_override vpNet1500 skbOverride 600 true allocAll sendEight 0 stZero
      (by decide)⟩

theorem ovs_vport_fragment_shape_witness :
    ((if (0 : Nat) > 0 then (0 : Nat) else 28) = 28)
    ∧ skbPlain.ip.ihl + 8 ≤ 28
    ∧ (28 : Nat) < 2 ^ 32
    ∧ 28 < skbPlain.ip.tot_len
    ∧ skbPlain.ip.tot_len < 2 ^ 32
    ∧ skbPlain.payload.length = skbPlain.ip.tot_len - skbPlain.ip.ihl
    ∧ (∀ i, allocAll i = true)
    ∧ (∃ out, ovs_vport_fragment skbPlain 0 28 allocAll sendEight 0 stZero = some out
        ∧ out.frags ≠ []
        ∧ (∀ f ∈ out.frags.dropLast, f.payload.length = (28 - skbPlain.ip.ihl) / 8 * 8)
        ∧ (out.frags.map Fragment.payload).flatten = skbPlain.payload
        ∧ (∀ f ∈ out.frags, f.tot_len = skbPlain.ip.ihl + f.payload.length)
        ∧ (∀ f ∈ out.frags.dropLast, f.frag_off_field.testBit 13 = true)
        ∧ (∀ h : out.frags ≠ [],
            (out.frags.getLast h).frag_off_field.testBit 13 = false)) :=
  ⟨by decide, by decide, by decide, by decide, by decide, by decide, fun _ => rfl,
    ovs_vport_fragment_shape skbPlain 0 28 allocAll sendEight 0 stZero 28
      (by decide) (by decide) (by decide) (by decide) (by decide) (by decide)
      (fun _ => rfl)⟩

theorem ovs_vport_direct_send_stats_witness :
    ((stZero.pcpu 0).tx_packets + 1 < 2 ^ 64)
    ∧ ((stZero.pcpu 0).tx_bytes + (5 : Int).toNat < 2 ^ 64)
    ∧ (stZero.err_stats.tx_errors + 1 < 2 ^ 64)
    ∧ (stZero.err_stats.tx_dropped + 1 < 2 ^ 64)
    ∧ ((__ovs_vport_send 5 0 stZero).1 = 5 ∧
      ((0 : Int) < 5 →
        ((__ovs_vport_send 5 0 stZero).2.1.pcpu 0).tx_packets
            = (stZero.pcpu 0).tx_packets + 1 ∧
        ((__ovs_vport_send 5 0 stZero).2.1.pcpu 0).tx_bytes
            = (stZero.pcpu 0).tx_bytes + (5 : Int).toNat ∧
        (__ovs_vport_send 5 0 stZero).2.1.err_stats = stZero.err_stats ∧
        (__ovs_vport_send 5 0 stZero).2.2 = false) ∧
      ((5 : Int) < 0 →
        (__ovs_vport_send 5 0 stZero).2.1.err_stats.tx_errors
            = stZero.err_stats.tx_errors + 1 ∧
        (__ovs_vport_send 5 0 stZero).2.1.err_stats.tx_dropped
            = stZero.err_stats.tx_dropped ∧
        (__ovs_vport_send 5 0 stZero).2.1.err_stats.rx_errors
            = stZero.err_stats.rx_errors ∧
        (__ovs_vport_send 5 0 stZero).2.1.err_stats.rx_dropped
            = stZero.err_stats.rx_dropped ∧
        (__ovs_vport_send 5 0 stZero).2.1.pcpu = stZero.pcpu ∧
        (__ovs_vport_send 5 0 stZero).2.2 = true) ∧
      ((5 : Int) = 0 →
        (__ovs_vport_send 5 0 stZero).2.1.err_stats.tx_dropped
            = stZero.err_stats.tx_dropped + 1 ∧
        (__ovs_vport_send 5 0 stZero).2.1.err_stats.tx_errors
            = stZero.err_stats.tx_errors ∧
        (__ovs_vport_send 5 0 stZero).2.1.err_stats.rx_errors
            = stZero.err_stats.rx_errors ∧
        (__ovs_vport_send 5 0 stZero).2.1.err_stats.rx_dropped
            = stZero.err_stats.rx_dropped ∧
        (__ovs_vport_send 5 0 stZero).2.1.pcpu = stZero.pcpu ∧
        (__ovs_vport_send 5 0 stZero).2.2 = false)) :=
  ⟨by decide, by decide, by decide, by decide,
    ovs_vport_direct_send_stats 5 0 stZero (by decide) (by decide) (by decide) (by decide)⟩

theorem ovs_vport_record_error_exact_witness :
    (errCounter VportErrType.VPORT_E_TX_ERROR stZero.offset_stats
      + errField VportErrType.VPORT_E_TX_ERROR stZero.err_stats + 3 < 2 ^ 64)
    ∧ (errCounter VportErrType.VPORT_E_TX_ERROR
        (ovs_vport_get_stats (recordErrorN VportErrType.VPORT_E_TX_ERROR 3 stZero))
          = errCounter VportErrType.VPORT_E_TX_ERROR (ovs_vport_get_stats stZero) + 3
      ∧ ∀ k', k' ≠ VportErrType.VPORT_E_TX_ERROR →
          errCounter k' (ovs_vport_get_stats (recordErrorN VportErrType.VPORT_E_TX_ERROR 3 stZero))
            = errCounter k' (ovs_vport_get_stats stZero)) :=
  ⟨by decide,
    ovs_vport_record_error_exact VportErrType.VPORT_E_TX_ERROR 3 stZero (by decide)⟩

theorem ovs_vport_set_get_roundtrip_witness :
    stZero.err_stats = ⟨0, 0, 0, 0⟩
    ∧ (∀ i, i < stZero.ncpu → stZero.pcpu i = ⟨0, 0, 0, 0⟩)
    ∧ ovs_vport_get_stats (ovs_vport_set_stats ⟨1, 2, 3, 4, 5, 6, 7, 8⟩ stZero)
        = ⟨1, 2, 3, 4, 5, 6, 7, 8⟩ :=
  ⟨rfl, fun _ _ => rfl,
    ovs_vport_set_get_roundtrip ⟨1, 2, 3, 4, 5, 6, 7, 8⟩ stZero rfl (fun _ _ => rfl)
      (by decide) (by decide) (by decide) (by decide)
      (by decide) (by decide) (by decide) (by decide)⟩

/-- Hash oracle for the registry witness. -/
def hashZero : Nat → String → Nat := fun _ _ => 0

/-- Port name for the registry witness. -/
def pname1 : String := "p1"

/-- Empty registry. -/
def regEmpty : Registry := fun _ => []

/-- A two-backend ops list (netdev and internal). -/
def opsListNI : List VportOpsEntry :=
  [⟨.OVS_VPORT_TYPE_NETDEV, fun name net => .ok ⟨name, net⟩⟩,
   ⟨.OVS_VPORT_TYPE_INTERNAL, fun name net => .ok ⟨name, net⟩⟩]

theorem ovs_vport_add_unsupported_witness :
    (∀ e ∈ opsListNI, e.type ≠ VportType.OVS_VPORT_TYPE_LISP)
    ∧ ((ovs_vport_add hashZero opsListNI regEmpty .OVS_VPORT_TYPE_LISP pname1 7).1
          = Except.error (-EAFNOSUPPORT)
      ∧ (ovs_vport_add hashZero opsListNI regEmpty .OVS_VPORT_TYPE_LISP pname1 7).2 = regEmpty
      ∧ (-EAFNOSUPPORT : Int) ≠ -ENOMEM
      ∧ ∀ net name,
          ovs_vport_locate hashZero
            (ovs_vport_add hashZero opsListNI regEmpty .OVS_VPORT_TYPE_LISP pname1 7).2 net name
          = ovs_vport_locate hashZero regEmpty net name) :=
  ⟨by
      intro e he
      simp only [opsListNI, List.mem_cons, List.mem_singleton] at he
      rcases he with rfl | he
      · decide
      · rcases he with rfl | he
        · decide
        · exact absurd he (List.not_mem_nil e),
    ovs_vport_add_unsupported hashZero opsListNI regEmpty .OVS_VPORT_TYPE_LISP pname1 7
      (by
        intro e he
        simp only [opsListNI, List.mem_cons, List.mem_singleton] at he
        rcases he with rfl | he
        · decide
        · rcases he with rfl | he
          · decide
          · exact absurd he (List.not_mem_nil e))⟩

theorem ovs_vport_fragment_renumbers_witness :
    ((if (0 : Nat) > 0 then (0 : Nat) else 28) = 28)
    ∧ skbPlain.ip.ihl + 8 ≤ 28
    ∧ (28 : Nat) < 2 ^ 32
    ∧ skbPlain.ip.ihl ≤ skbPlain.ip.tot_len
    ∧ skbPlain.ip.tot_len < 2 ^ 32
    ∧ skbPlain.payload.length = skbPlain.ip.tot_len - skbPlain.ip.ihl
    ∧ (∀ i, allocAll i = true)
    ∧ ((∃ out, ovs_vport_fragment skbPlain 0 28 allocAll sendEight 0 stZero = some out
        ∧ out.frags.map (fun f => f.frag_off_field &&& IP_OFFSET)
            = (runningOffsets 0 (out.frags.map (fun f => f.payload.length))).map
                (fun o => (o >>> 3) &&& IP_OFFSET)
        ∧ (∀ f ∈ out.frags, f.frag_off_field.testBit 14 = skbPlain.ip.frag_off.testBit 14))
      ∧ (∀ fo2, fo2 &&& IP_DF = skbPlain.ip.frag_off &&& IP_DF →
          ovs_vport_fragment { skbPlain with ip := { skbPlain.ip with frag_off := fo2 } }
              0 28 allocAll sendEight 0 stZero
            = ovs_vport_fragment skbPlain 0 28 allocAll sendEight 0 stZero)) :=
  ⟨by decide, by decide, by decide, by decide, by decide, by decide, fun _ => rfl,
    ovs_vport_fragment_renumbers skbPlain 0 28 allocAll sendEight 0 stZero 28
      (by decide) (by decide) (by decide) (by decide) (by decide) (by decide)
      (fun _ => rfl)⟩
